import Mathlib

/-!
Shallow embedding of the `RunScriptWebpackPlugin` process lifecycle
controller (src: the plugin class with `getSignal`, `afterEmit`,
`startServer`, `_startServer`, `_stopServer`, `_restartServer`, and the
keyboard `rs` listener).

Modelling conventions:
* JavaScript truthiness of an optional string (`options.name`,
  `output.path`, `this._entrypoint`) is `optStrTruthy`: present and
  non-empty.
* JavaScript truthiness of an optional pid (`worker.pid`) is `pidTruthy`:
  present and non-zero.
* Side effects (`fork`, `process.kill`, `console.log`, `console.error`,
  the host completion callback) are recorded in an `Effect` trace.
* The `setTimeout(..., 0)` at the end of `_startServer` is modelled as an
  explicit `Pending` task: recording the forked child as `worker`, and
  invoking the callback when one was passed.  `runPending` executes it.
* A `throw` is modelled by the `thrown` field of `SyncResult`; effects
  emitted before the throw stay in the trace, nothing after it runs.
* The value returned by `fork` (the child handle, with whatever pid and
  connectivity the OS later gives it) is an environment input `child`.
-/

namespace RunScript

/-- A child process handle as the plugin observes it: `pid` may be
undefined, `connected` is the IPC-channel flag. -/
structure Worker where
  pid : Option Nat
  connected : Bool
deriving Repr, DecidableEq

/-- The `signal` option: `boolean | string` in the source. -/
inductive SignalOpt where
  | ofBool (b : Bool)
  | ofString (s : String)
deriving Repr, DecidableEq

/-- `getSignal`: `false ↦ undefined`, `true ↦ 'SIGUSR2'`, string verbatim. -/
def getSignal : SignalOpt → Option String
  | .ofBool false => none
  | .ofBool true => some "SIGUSR2"
  | .ofString s => some s

/-- The plugin options after the constructor's defaulting. -/
structure Options where
  autoRestart : Bool
  args : List String
  cwd : Option String
  env : Option (List (String × String))
  keyboard : Bool
  name : Option String
  nodeArgs : List String
  restartable : Bool
  signal : SignalOpt
deriving Repr, DecidableEq

/-- The plugin's mutable fields: `this.worker` and `this._entrypoint`. -/
structure PluginState where
  worker : Option Worker
  entrypoint : Option String
deriving Repr, DecidableEq

/-- Observable side effects of the controller. -/
inductive Effect where
  | forkProc (entry : String) (args : List String) (nodeArgs : List String)
      (cwd : Option String) (env : Option (List (String × String)))
  | killProc (pid : Nat) (signal : Option String)
  | logInfo (msg : String)
  | logError (msg : String)
  | cbCall
deriving Repr, DecidableEq

/-- The task scheduled by `setTimeout(..., 0)` in `_startServer`: record
`child` as the current worker, then invoke the callback if one was
captured. -/
structure Pending where
  child : Worker
  hasCb : Bool
deriving Repr, DecidableEq

/-- Result of the synchronous part of a handler: new state, emitted
effects, the scheduled deferred task (if any), and the thrown error
message (if any). -/
structure SyncResult where
  st : PluginState
  trace : List Effect
  pending : Option Pending
  thrown : Option String
deriving Repr, DecidableEq

/-- JS truthiness of an optional string. -/
def optStrTruthy : Option String → Bool
  | none => false
  | some s => s != ""

/-- JS truthiness of an optional pid: defined and non-zero. -/
def pidTruthy : Option Nat → Bool
  | none => false
  | some p => p != 0

/-- JS template interpolation of a possibly-undefined string. -/
def showJs : Option String → String
  | none => "undefined"
  | some s => s

/-- `names.join(' ')`. -/
def joinSp (names : List String) : String :=
  String.intercalate " " names

/-- `_stopServer`: compute the signal, and if the worker's pid is truthy
call `process.kill(pid, signal)`.  No state change; the kill happens even
when `getSignal` returned `undefined`. -/
def _stopServer (opts : Options) (st : PluginState) : List Effect :=
  match st.worker with
  | some w =>
      if pidTruthy w.pid then
        [Effect.killProc (w.pid.getD 0) (getSignal opts.signal)]
      else []
  | none => []

/-- `_startServer(cb?)`: throw when the entrypoint is falsy, otherwise
fork the entrypoint and schedule `{ this.worker = child; cb?.() }` on a
zero-delay timer. -/
def _startServer (opts : Options) (st : PluginState) (child : Worker)
    (hasCb : Bool) : SyncResult :=
  if optStrTruthy st.entrypoint then
    { st := st
      trace := [Effect.forkProc (st.entrypoint.getD "") opts.args
        opts.nodeArgs opts.cwd opts.env]
      pending := some { child := child, hasCb := hasCb }
      thrown := none }
  else
    { st := st, trace := [], pending := none
      thrown := some "run-script-webpack-plugin requires an entrypoint." }

/-- `_restartServer`: log `Restarting app...`, `_stopServer()`, then
`_startServer()` with no callback. -/
def _restartServer (opts : Options) (st : PluginState) (child : Worker) :
    SyncResult :=
  let r := _startServer opts st child false
  { r with trace :=
      Effect.logInfo "Restarting app..." :: (_stopServer opts st ++ r.trace) }

/-- Artifact-name resolution of `startServer`: the chosen name (possibly
the undefined first element of an empty set) and the log effects. -/
def resolveName (optName : Option String) (names : List String) :
    Option String × List Effect :=
  if optStrTruthy optName then
    (some (optName.getD ""),
      if names.contains (optName.getD "") then []
      else [Effect.logError ("Entry " ++ optName.getD ""
        ++ " not found. Try one of: " ++ joinSp names)])
  else
    (names.head?,
      if names.length > 1 then
        [Effect.logInfo ("More than one entry built, selected "
          ++ showJs names.head? ++ ". All names: " ++ joinSp names)]
      else [])

/-- `startServer(compilation, cb)`: resolve the artifact name, throw when
`output.path` is falsy, set `_entrypoint` to `` `${path}/${name}` `` and
call `_startServer` with the callback. -/
def startServer (opts : Options) (st : PluginState) (assets : List String)
    (outputPath : Option String) (child : Worker) : SyncResult :=
  let r := resolveName opts.name assets
  if optStrTruthy outputPath then
    let ep := outputPath.getD "" ++ "/" ++ showJs r.1
    let r2 := _startServer opts { st with entrypoint := some ep } child true
    { r2 with trace := r.2 ++ r2.trace }
  else
    { st := st, trace := r.2, pending := none
      thrown := some "output.path should be defined in webpack config!" }

/-- The guard of `afterEmit`:
`this.worker && this.worker.connected && this.worker?.pid`. -/
def workerGuard (st : PluginState) : Bool :=
  match st.worker with
  | some w => w.connected && pidTruthy w.pid
  | none => false

/-- `afterEmit(compilation, cb)`: with a connected worker of truthy pid,
either restart (then call `cb()` synchronously) or stop-and-`cb()`;
otherwise fall through to `startServer`. -/
def afterEmit (opts : Options) (st : PluginState) (assets : List String)
    (outputPath : Option String) (child : Worker) : SyncResult :=
  if workerGuard st then
    if opts.autoRestart then
      let r := _restartServer opts st child
      match r.thrown with
      | some _ => r
      | none => { r with trace := r.trace ++ [Effect.cbCall] }
    else
      { st := st, trace := _stopServer opts st ++ [Effect.cbCall]
        pending := none, thrown := none }
  else
    startServer opts st assets outputPath child

/-- Execute the deferred `setTimeout` task: record the child as the
current worker, then invoke the captured callback when present. -/
def runPending (st : PluginState) (p : Pending) : PluginState × List Effect :=
  ({ st with worker := some p.child },
   if p.hasCb then [Effect.cbCall] else [])

/-- Whether the constructor installed the stdin `data` listener:
`restartable` truthy and `keyboard` truthy. -/
def stdinHandlerInstalled (opts : Options) : Bool :=
  opts.restartable && opts.keyboard

/-- JS `String.prototype.trim`: drop whitespace from both ends. -/
def jsTrim (s : String) : String :=
  String.mk
    ((((s.data.dropWhile Char.isWhitespace).reverse.dropWhile
      Char.isWhitespace).reverse))

/-- The stdin `data` listener body: restart when the chunk trims to
`rs`, otherwise do nothing. -/
def onData (opts : Options) (st : PluginState) (child : Worker)
    (data : String) : SyncResult :=
  if jsTrim data == "rs" then _restartServer opts st child
  else { st := st, trace := [], pending := none, thrown := none }

/-- A stdin `data` event as delivered by the process: it reaches the
listener only when the listener was installed. -/
def stdinDataEvent (opts : Options) (st : PluginState) (child : Worker)
    (data : String) : SyncResult :=
  if stdinHandlerInstalled opts then onData opts st child data
  else { st := st, trace := [], pending := none, thrown := none }

/-- Initial plugin state: no worker, no entrypoint. -/
def initialState : PluginState := { worker := none, entrypoint := none }

/-- A serial sequence of build-completion events.  Each event runs the
synchronous `afterEmit` phase and then, on the next event-loop turn, the
deferred task (when one was scheduled); `children` supplies the handle
each `fork` returns. -/
def runEvents (opts : Options) (assets : List String)
    (outputPath : Option String) :
    List Worker → PluginState → PluginState × List Effect
  | [], st => (st, [])
  | c :: rest, st =>
      let r := afterEmit opts st assets outputPath c
      let ack := match r.pending with
        | some p => runPending r.st p
        | none => (r.st, [])
      let next := runEvents opts assets outputPath rest ack.1
      (next.1, r.trace ++ ack.2 ++ next.2)

/-- Effect classifiers. -/
def isFork : Effect → Bool
  | .forkProc _ _ _ _ _ => true
  | _ => false

def isKill : Effect → Bool
  | .killProc _ _ => true
  | _ => false

def isCb : Effect → Bool
  | .cbCall => true
  | _ => false

/-- A worker handle that passes the `afterEmit` guard: connected with a
truthy pid. -/
def goodWorker (w : Worker) : Bool :=
  w.connected && pidTruthy w.pid

end RunScript

namespace RunScript

/-! ## Helper lemmas -/

/-- An entry path built as `` `${dir}/${name}` `` is never the empty
string (it contains the separator). -/
theorem append_slash_ne_empty (a b : String) : a ++ "/" ++ b ≠ "" := by
  intro h
  have hd := congrArg String.data h
  simp [String.data_append] at hd

theorem append_slash_bne (a b : String) : (a ++ "/" ++ b != "") = true := by
  simp [bne_iff_ne]
  exact append_slash_ne_empty a b

theorem workerGuard_some (st : PluginState) (w : Worker)
    (hw : st.worker = some w) : workerGuard st = goodWorker w := by
  simp [workerGuard, hw, goodWorker]

/-- `_stopServer` emits exactly one kill when the worker's pid is truthy. -/
theorem stopServer_eq_of_pid (opts : Options) (st : PluginState) (w : Worker)
    (hw : st.worker = some w) (hp : pidTruthy w.pid = true) :
    _stopServer opts st =
      [Effect.killProc (w.pid.getD 0) (getSignal opts.signal)] := by
  simp [_stopServer, hw, hp]

theorem stopServer_fork_count (opts : Options) (st : PluginState) :
    (_stopServer opts st).countP isFork = 0 := by
  unfold _stopServer
  split
  · split <;> simp [isFork]
  · simp

theorem stopServer_cb_count (opts : Options) (st : PluginState) :
    (_stopServer opts st).countP isCb = 0 := by
  unfold _stopServer
  split
  · split <;> simp [isCb]
  · simp

/-- The name-resolution step only logs: no forks, kills or callbacks. -/
theorem resolveName_log_counts (n : Option String) (names : List String) :
    (resolveName n names).2.countP isFork = 0
      ∧ (resolveName n names).2.countP isKill = 0
      ∧ (resolveName n names).2.countP isCb = 0 := by
  unfold resolveName
  split <;> split <;> simp [isFork, isKill, isCb]

/-! ## Step-shape lemmas for `afterEmit` -/

/-- Restart branch: with a guarded worker, auto-restart on and a truthy
entrypoint, `afterEmit` logs, stops, forks, then calls `cb()`
synchronously; the worker recording stays pending with no callback. -/
theorem afterEmit_restart_eq (opts : Options) (st : PluginState)
    (assets : List String) (out : Option String) (c : Worker) (e : String)
    (hg : workerGuard st = true) (hauto : opts.autoRestart = true)
    (he : st.entrypoint = some e) (he0 : e ≠ "") :
    afterEmit opts st assets out c =
      { st := st
        trace := (Effect.logInfo "Restarting app..." ::
          (_stopServer opts st ++
            [Effect.forkProc e opts.args opts.nodeArgs opts.cwd opts.env]))
          ++ [Effect.cbCall]
        pending := some { child := c, hasCb := false }
        thrown := none } := by
  simp [afterEmit, hg, hauto, _restartServer, _startServer, he, optStrTruthy,
    bne_iff_ne, he0]

/-- Stop branch: with a guarded worker and auto-restart off, `afterEmit`
stops, calls `cb()`, changes no state and schedules nothing. -/
theorem afterEmit_stop_eq (opts : Options) (st : PluginState)
    (assets : List String) (out : Option String) (c : Worker)
    (hg : workerGuard st = true) (hauto : opts.autoRestart = false) :
    afterEmit opts st assets out c =
      { st := st, trace := _stopServer opts st ++ [Effect.cbCall]
        pending := none, thrown := none } := by
  simp [afterEmit, hg, hauto]

/-- Fresh-start branch: with no guarded worker and a truthy output
directory, `afterEmit` resolves the name, sets the entrypoint, forks, and
schedules the worker recording together with the callback. -/
theorem afterEmit_fresh_eq (opts : Options) (st : PluginState)
    (assets : List String) (dir : String) (c : Worker)
    (hg : workerGuard st = false) (hdir : dir ≠ "") :
    afterEmit opts st assets (some dir) c =
      { st := { st with
            entrypoint :=
              some (dir ++ "/" ++ showJs (resolveName opts.name assets).1) }
        trace := (resolveName opts.name assets).2 ++
          [Effect.forkProc
            (dir ++ "/" ++ showJs (resolveName opts.name assets).1)
            opts.args opts.nodeArgs opts.cwd opts.env]
        pending := some { child := c, hasCb := true }
        thrown := none } := by
  simp [afterEmit, hg, startServer, optStrTruthy, bne_iff_ne, hdir,
    _startServer, append_slash_ne_empty]

end RunScript

namespace RunScript

/-! ## Sequence lemmas -/

/-- Auto-restart steady state: from a state with a guarded worker and a
resolved entrypoint, every build event forks exactly once and invokes the
callback exactly once. -/
theorem runEvents_auto_running (opts : Options) (assets : List String)
    (out : Option String) (hauto : opts.autoRestart = true)
    (children : List Worker) :
    ∀ (st : PluginState) (e : String),
      (∀ c ∈ children, goodWorker c = true) →
      workerGuard st = true → st.entrypoint = some e → e ≠ "" →
      (runEvents opts assets out children st).2.countP isFork
          = children.length
      ∧ (runEvents opts assets out children st).2.countP isCb
          = children.length := by
  induction children with
  | nil =>
      intro st e _ _ _ _
      simp [runEvents]
  | cons c rest ih =>
      intro st e hc hg he he0
      have hstep := afterEmit_restart_eq opts st assets out c e hg hauto he he0
      have hcg : goodWorker c = true := hc c (List.mem_cons_self c rest)
      have hrest : ∀ x ∈ rest, goodWorker x = true :=
        fun x hx => hc x (List.mem_cons_of_mem c hx)
      have hg2 : workerGuard { st with worker := some c } = true :=
        (workerGuard_some _ c rfl).trans hcg
      have hih := ih { st with worker := some c } e hrest hg2 (by simp [he]) he0
      simp [runEvents, hstep, runPending, List.countP_append, List.countP_cons,
        isFork, isCb, stopServer_fork_count, stopServer_cb_count,
        hih.1, hih.2]

/-- Stop mode steady state: with auto-restart off and a guarded worker
recorded, every build event emits one kill and one callback, forks
nothing, and leaves the state untouched. -/
theorem runEvents_stop_mode (opts : Options) (assets : List String)
    (out : Option String) (hauto : opts.autoRestart = false)
    (rest : List Worker) :
    ∀ (st : PluginState) (w : Worker),
      st.worker = some w → goodWorker w = true →
      (runEvents opts assets out rest st).1 = st
      ∧ (runEvents opts assets out rest st).2.countP isFork = 0
      ∧ (runEvents opts assets out rest st).2.countP isCb = rest.length
      ∧ (runEvents opts assets out rest st).2.countP isKill = rest.length := by
  induction rest with
  | nil =>
      intro st w _ _
      simp [runEvents]
  | cons c rest ih =>
      intro st w hw hg
      have hguard : workerGuard st = true := (workerGuard_some st w hw).trans hg
      have hp : pidTruthy w.pid = true := by
        simp [goodWorker] at hg
        exact hg.2
      have hstep := afterEmit_stop_eq opts st assets out c hguard hauto
      have hstop := stopServer_eq_of_pid opts st w hw hp
      have hih := ih st w hw hg
      simp [runEvents, hstep, hstop, List.countP_append, List.countP_cons,
        isFork, isCb, isKill, hih.1, hih.2.1, hih.2.2.1, hih.2.2.2]

end RunScript

namespace RunScript

/-! ## Claim theorems -/

/-- C1: with `autoRestart` true and a defined output directory, a serial
sequence of build-completion events in which every fork's acknowledgment
records a connected worker with a truthy pid performs exactly one fork
per event: the first event fresh-starts, every later one restart-spawns. -/
theorem autoRestart_spawn_count (opts : Options) (assets : List String)
    (dir : String) (children : List Worker)
    (hauto : opts.autoRestart = true) (hdir : dir ≠ "")
    (hgood : ∀ c ∈ children, goodWorker c = true) :
    (runEvents opts assets (some dir) children initialState).2.countP isFork
      = children.length := by
  cases children with
  | nil => simp [runEvents]
  | cons c rest =>
      have hfresh := afterEmit_fresh_eq opts initialState assets dir c rfl hdir
      have hcg : goodWorker c = true := hgood c (List.mem_cons_self c rest)
      have hrest : ∀ x ∈ rest, goodWorker x = true :=
        fun x hx => hgood x (List.mem_cons_of_mem c hx)
      have hg2 : workerGuard
          { worker := some c,
            entrypoint :=
              some (dir ++ "/" ++ showJs (resolveName opts.name assets).1) }
          = true :=
        (workerGuard_some _ c rfl).trans hcg
      have hrun := runEvents_auto_running opts assets (some dir) hauto rest
        { worker := some c,
          entrypoint :=
            some (dir ++ "/" ++ showJs (resolveName opts.name assets).1) }
        (dir ++ "/" ++ showJs (resolveName opts.name assets).1)
        hrest hg2 rfl (append_slash_ne_empty _ _)
      simp only [runEvents]
      rw [hfresh]
      simp [runPending, initialState, List.countP_append, List.countP_cons,
        isFork, (resolveName_log_counts opts.name assets).1, hrun.1]

/-- C1 witness: two build events with `autoRestart` on fork twice. -/
theorem autoRestart_spawn_count_witness :
    (runEvents
      { autoRestart := true, args := [], cwd := none, env := none,
        keyboard := false, name := none, nodeArgs := [], restartable := false,
        signal := SignalOpt.ofBool false }
      ["main.js"] (some "/dist")
      [{ pid := some 1, connected := true }, { pid := some 2, connected := true }]
      initialState).2.countP isFork = 2 :=
  autoRestart_spawn_count _ _ _ _ rfl (by decide) (by decide)

end RunScript

namespace RunScript

/-- C2 counterexample: with `autoRestart` off and a connected worker of
pid 5 recorded, a build-completion event signals and calls the callback,
but the controller still tracks the old worker afterwards — the state
does not become `NoProcess`. -/
theorem stop_branch_keeps_worker_cex :
    (afterEmit
      { autoRestart := false, args := [], cwd := none, env := none,
        keyboard := false, name := none, nodeArgs := [], restartable := false,
        signal := SignalOpt.ofBool false }
      { worker := some { pid := some 5, connected := true },
        entrypoint := some "/dist/main.js" }
      ["main.js"] (some "/dist") { pid := some 6, connected := true }).st.worker
      = some { pid := some 5, connected := true }
    ∧ (afterEmit
      { autoRestart := false, args := [], cwd := none, env := none,
        keyboard := false, name := none, nodeArgs := [], restartable := false,
        signal := SignalOpt.ofBool false }
      { worker := some { pid := some 5, connected := true },
        entrypoint := some "/dist/main.js" }
      ["main.js"] (some "/dist") { pid := some 6, connected := true }).st.worker
      ≠ none := by
  exact ⟨rfl, by decide⟩

/-- C2 amended: with `autoRestart` false, only the first event of a
sequence started in `NoProcess` forks; each later event (while the
recorded worker is connected with a truthy pid) emits exactly one kill
and exactly one callback and forks nothing; but the controller does not
clear the tracked handle — the first fork's worker is still recorded at
the end. -/
theorem noAutoRestart_stop_behavior (opts : Options) (assets : List String)
    (dir : String) (c : Worker) (rest : List Worker)
    (hauto : opts.autoRestart = false) (hdir : dir ≠ "")
    (hc : goodWorker c = true) :
    (runEvents opts assets (some dir) (c :: rest) initialState).2.countP isFork
        = 1
    ∧ (runEvents opts assets (some dir) (c :: rest) initialState).2.countP isCb
        = rest.length + 1
    ∧ (runEvents opts assets (some dir) (c :: rest) initialState).2.countP
        isKill = rest.length
    ∧ (runEvents opts assets (some dir) (c :: rest) initialState).1.worker
        = some c := by
  have hfresh := afterEmit_fresh_eq opts initialState assets dir c rfl hdir
  have hrun := runEvents_stop_mode opts assets (some dir) hauto rest
    { worker := some c,
      entrypoint :=
        some (dir ++ "/" ++ showJs (resolveName opts.name assets).1) }
    c rfl hc
  refine ⟨?_, ?_, ?_, ?_⟩ <;>
    · simp only [runEvents]
      rw [hfresh]
      simp [runPending, initialState, List.countP_append, List.countP_cons,
        isFork, isCb, isKill, resolveName_log_counts opts.name assets,
        hrun.1, hrun.2.1, hrun.2.2.1, hrun.2.2.2]

/-- C2 witness: one fresh start then two stop events. -/
theorem noAutoRestart_stop_behavior_witness :
    (runEvents
      { autoRestart := false, args := [], cwd := none, env := none,
        keyboard := false, name := none, nodeArgs := [], restartable := false,
        signal := SignalOpt.ofBool true }
      ["main.js"] (some "/dist")
      [{ pid := some 3, connected := true }, { pid := some 4, connected := true },
        { pid := some 5, connected := true }]
      initialState).2.countP isFork = 1
    ∧ (runEvents
      { autoRestart := false, args := [], cwd := none, env := none,
        keyboard := false, name := none, nodeArgs := [], restartable := false,
        signal := SignalOpt.ofBool true }
      ["main.js"] (some "/dist")
      [{ pid := some 3, connected := true }, { pid := some 4, connected := true },
        { pid := some 5, connected := true }]
      initialState).2.countP isCb = 3
    ∧ (runEvents
      { autoRestart := false, args := [], cwd := none, env := none,
        keyboard := false, name := none, nodeArgs := [], restartable := false,
        signal := SignalOpt.ofBool true }
      ["main.js"] (some "/dist")
      [{ pid := some 3, connected := true }, { pid := some 4, connected := true },
        { pid := some 5, connected := true }]
      initialState).2.countP isKill = 2
    ∧ (runEvents
      { autoRestart := false, args := [], cwd := none, env := none,
        keyboard := false, name := none, nodeArgs := [], restartable := false,
        signal := SignalOpt.ofBool true }
      ["main.js"] (some "/dist")
      [{ pid := some 3, connected := true }, { pid := some 4, connected := true },
        { pid := some 5, connected := true }]
      initialState).1.worker = some { pid := some 3, connected := true } :=
  noAutoRestart_stop_behavior _ _ _ _
    [{ pid := some 4, connected := true }, { pid := some 5, connected := true }]
    rfl (by decide) (by decide)

end RunScript

namespace RunScript

/-- C3 counterexample: with `signal: false` configured, `_stopServer`
still performs a `process.kill` call on a worker with pid 123 — the kill
merely carries no named signal (the platform default applies). -/
theorem signal_false_still_kills_cex :
    _stopServer
      { autoRestart := true, args := [], cwd := none, env := none,
        keyboard := false, name := none, nodeArgs := [], restartable := false,
        signal := SignalOpt.ofBool false }
      { worker := some { pid := some 123, connected := true },
        entrypoint := some "/dist/main.js" }
      = [Effect.killProc 123 none]
    ∧ _stopServer
      { autoRestart := true, args := [], cwd := none, env := none,
        keyboard := false, name := none, nodeArgs := [], restartable := false,
        signal := SignalOpt.ofBool false }
      { worker := some { pid := some 123, connected := true },
        entrypoint := some "/dist/main.js" }
      ≠ [] := by
  exact ⟨rfl, by decide⟩

/-- C3 amended: every restart of a worker with a known pid performs
exactly one kill call carrying `getSignal` of the configured policy:
`false ↦` no named signal (platform default), `true ↦ SIGUSR2`, a string
`↦` that string verbatim. -/
theorem restart_kill_policy (opts : Options) (st : PluginState)
    (child w : Worker) (p : Nat)
    (hw : st.worker = some w) (hp : w.pid = some p) (hp0 : p ≠ 0) :
    (_restartServer opts st child).trace.filter isKill =
        [Effect.killProc p (getSignal opts.signal)]
      ∧ getSignal (SignalOpt.ofBool false) = none
      ∧ getSignal (SignalOpt.ofBool true) = some "SIGUSR2"
      ∧ ∀ s, getSignal (SignalOpt.ofString s) = some s := by
  refine ⟨?_, rfl, rfl, fun s => rfl⟩
  unfold _restartServer _startServer
  split <;>
    simp [_stopServer, hw, hp, pidTruthy, bne_iff_ne, hp0, isKill,
      List.filter]

/-- C3 witness: restart with pid 9 under the three signal policies. -/
theorem restart_kill_policy_witness :
    (_restartServer
      { autoRestart := true, args := [], cwd := none, env := none,
        keyboard := false, name := none, nodeArgs := [], restartable := false,
        signal := SignalOpt.ofString "SIGINT" }
      { worker := some { pid := some 9, connected := true },
        entrypoint := some "/dist/main.js" }
      { pid := some 10, connected := true }).trace.filter isKill =
        [Effect.killProc 9 (getSignal (SignalOpt.ofString "SIGINT"))]
      ∧ getSignal (SignalOpt.ofBool false) = none
      ∧ getSignal (SignalOpt.ofBool true) = some "SIGUSR2"
      ∧ ∀ s, getSignal (SignalOpt.ofString s) = some s :=
  restart_kill_policy _ _ _ _ 9 rfl rfl (by decide)

/-- C4 counterexample: in the auto-restart branch the completion
callback appears at the end of the synchronous trace — before the
deferred acknowledgment (`pending`, which records the worker and carries
no callback) has run — contradicting "invoked only after the spawn has
been acknowledged at a deferred asynchronous boundary". -/
theorem autoRestart_sync_cb_cex :
    afterEmit
      { autoRestart := true, args := [], cwd := none, env := none,
        keyboard := false, name := none, nodeArgs := [], restartable := false,
        signal := SignalOpt.ofBool false }
      { worker := some { pid := some 5, connected := true },
        entrypoint := some "/dist/main.js" }
      ["main.js"] (some "/dist") { pid := some 7, connected := true } =
      { st := { worker := some { pid := some 5, connected := true },
                entrypoint := some "/dist/main.js" }
        trace := [Effect.logInfo "Restarting app...",
          Effect.killProc 5 none,
          Effect.forkProc "/dist/main.js" [] [] none none,
          Effect.cbCall]
        pending := some { child := { pid := some 7, connected := true },
                          hasCb := false }
        thrown := none } := by
  rfl

/-- C4 amended: in the fresh-start branch both the worker recording and
the callback are deferred (`pending` carries the callback; no
synchronous callback); in the auto-restart branch only the recording is
deferred — the callback is the last synchronous effect. -/
theorem spawn_ack_callback_policy (opts : Options) (st : PluginState)
    (assets : List String) (dir : String) (child : Worker) :
    (workerGuard st = false → dir ≠ "" →
        (afterEmit opts st assets (some dir) child).trace.countP isCb = 0
      ∧ (afterEmit opts st assets (some dir) child).pending =
          some { child := child, hasCb := true })
  ∧ (∀ e : String, workerGuard st = true → opts.autoRestart = true →
      st.entrypoint = some e → e ≠ "" →
        (afterEmit opts st assets (some dir) child).trace.getLast? =
          some Effect.cbCall
      ∧ (afterEmit opts st assets (some dir) child).pending =
          some { child := child, hasCb := false }) := by
  constructor
  · intro hg hdir
    rw [afterEmit_fresh_eq opts st assets dir child hg hdir]
    simp [List.countP_append, List.countP_cons, isCb,
      (resolveName_log_counts opts.name assets).2.2]
  · intro e hg hauto he he0
    rw [afterEmit_restart_eq opts st assets (some dir) child e hg hauto he he0]
    exact ⟨List.getLast?_concat _, rfl⟩

/-- C4 witness: both branches at concrete inputs. -/
theorem spawn_ack_callback_policy_witness :
    ((afterEmit
      { autoRestart := true, args := [], cwd := none, env := none,
        keyboard := false, name := none, nodeArgs := [], restartable := false,
        signal := SignalOpt.ofBool false }
      initialState ["main.js"] (some "/dist")
      { pid := some 11, connected := true }).trace.countP isCb = 0
    ∧ (afterEmit
      { autoRestart := true, args := [], cwd := none, env := none,
        keyboard := false, name := none, nodeArgs := [], restartable := false,
        signal := SignalOpt.ofBool false }
      initialState ["main.js"] (some "/dist")
      { pid := some 11, connected := true }).pending =
        some { child := { pid := some 11, connected := true }, hasCb := true })
    ∧ ((afterEmit
      { autoRestart := true, args := [], cwd := none, env := none,
        keyboard := false, name := none, nodeArgs := [], restartable := false,
        signal := SignalOpt.ofBool false }
      { worker := some { pid := some 5, connected := true },
        entrypoint := some "/dist/main.js" }
      ["main.js"] (some "/dist")
      { pid := some 11, connected := true }).trace.getLast? =
        some Effect.cbCall
    ∧ (afterEmit
      { autoRestart := true, args := [], cwd := none, env := none,
        keyboard := false, name := none, nodeArgs := [], restartable := false,
        signal := SignalOpt.ofBool false }
      { worker := some { pid := some 5, connected := true },
        entrypoint := some "/dist/main.js" }
      ["main.js"] (some "/dist")
      { pid := some 11, connected := true }).pending =
        some { child := { pid := some 11, connected := true },
               hasCb := false }) :=
  ⟨(spawn_ack_callback_policy _ initialState ["main.js"] "/dist" _).1
      rfl (by decide),
   (spawn_ack_callback_policy _ _ ["main.js"] "/dist" _).2
      "/dist/main.js" rfl rfl rfl (by decide)⟩

/-- C5: a build-completion event in the fresh-start branch with an
undefined output directory throws
`output.path should be defined in webpack config!`; the completion
callback is neither invoked synchronously nor scheduled. -/
theorem missing_output_path_throws (opts : Options) (st : PluginState)
    (assets : List String) (child : Worker)
    (hg : workerGuard st = false) :
    (afterEmit opts st assets none child).thrown =
        some "output.path should be defined in webpack config!"
      ∧ (afterEmit opts st assets none child).trace.countP isCb = 0
      ∧ (afterEmit opts st assets none child).pending = none := by
  simp [afterEmit, hg, startServer, optStrTruthy,
    (resolveName_log_counts opts.name assets).2.2]

/-- C5 witness. -/
theorem missing_output_path_throws_witness :
    (afterEmit
      { autoRestart := true, args := [], cwd := none, env := none,
        keyboard := false, name := none, nodeArgs := [], restartable := false,
        signal := SignalOpt.ofBool false }
      initialState ["main.js"] none
      { pid := some 1, connected := true }).thrown =
        some "output.path should be defined in webpack config!"
      ∧ (afterEmit
      { autoRestart := true, args := [], cwd := none, env := none,
        keyboard := false, name := none, nodeArgs := [], restartable := false,
        signal := SignalOpt.ofBool false }
      initialState ["main.js"] none
      { pid := some 1, connected := true }).trace.countP isCb = 0
      ∧ (afterEmit
      { autoRestart := true, args := [], cwd := none, env := none,
        keyboard := false, name := none, nodeArgs := [], restartable := false,
        signal := SignalOpt.ofBool false }
      initialState ["main.js"] none
      { pid := some 1, connected := true }).pending = none :=
  missing_output_path_throws _ initialState ["main.js"] _ rfl

/-- C6: restarting while the tracked worker's pid is undefined skips the
kill silently (no kill effect, no error) and still forks the entrypoint. -/
theorem restart_undefined_pid_skips_kill (opts : Options) (st : PluginState)
    (child w : Worker) (e : String)
    (hw : st.worker = some w) (hpid : w.pid = none)
    (he : st.entrypoint = some e) (he0 : e ≠ "") :
    (_restartServer opts st child).trace =
        [Effect.logInfo "Restarting app...",
          Effect.forkProc e opts.args opts.nodeArgs opts.cwd opts.env]
      ∧ (_restartServer opts st child).thrown = none
      ∧ (_restartServer opts st child).pending =
          some { child := child, hasCb := false } := by
  simp [_restartServer, _startServer, _stopServer, hw, hpid, pidTruthy, he,
    optStrTruthy, bne_iff_ne, he0]

/-- C6 witness. -/
theorem restart_undefined_pid_skips_kill_witness :
    (_restartServer
      { autoRestart := true, args := [], cwd := none, env := none,
        keyboard := false, name := none, nodeArgs := [], restartable := false,
        signal := SignalOpt.ofBool true }
      { worker := some { pid := none, connected := true },
        entrypoint := some "/dist/main.js" }
      { pid := some 2, connected := true }).trace =
        [Effect.logInfo "Restarting app...",
          Effect.forkProc "/dist/main.js" [] [] none none]
      ∧ (_restartServer
      { autoRestart := true, args := [], cwd := none, env := none,
        keyboard := false, name := none, nodeArgs := [], restartable := false,
        signal := SignalOpt.ofBool true }
      { worker := some { pid := none, connected := true },
        entrypoint := some "/dist/main.js" }
      { pid := some 2, connected := true }).thrown = none
      ∧ (_restartServer
      { autoRestart := true, args := [], cwd := none, env := none,
        keyboard := false, name := none, nodeArgs := [], restartable := false,
        signal := SignalOpt.ofBool true }
      { worker := some { pid := none, connected := true },
        entrypoint := some "/dist/main.js" }
      { pid := some 2, connected := true }).pending =
        some { child := { pid := some 2, connected := true },
               hasCb := false } :=
  restart_undefined_pid_skips_kill _ _ _ _ "/dist/main.js" rfl rfl rfl
    (by decide)

end RunScript

namespace RunScript

/-- C7: with explicit name `missing.js` absent from
`{main.js, other.js}`, `startServer` logs the error naming the entry and
listing the available names, throws nothing, and still forks with entry
path `` `${dir}/missing.js` ``. -/
theorem missing_name_logs_and_spawns (opts : Options) (st : PluginState)
    (dir : String) (child : Worker)
    (hname : opts.name = some "missing.js") (hdir : dir ≠ "") :
    (startServer opts st ["main.js", "other.js"] (some dir) child).trace =
        [Effect.logError
            "Entry missing.js not found. Try one of: main.js other.js",
          Effect.forkProc (dir ++ "/" ++ "missing.js") opts.args opts.nodeArgs
            opts.cwd opts.env]
      ∧ (startServer opts st ["main.js", "other.js"] (some dir) child).thrown
          = none
      ∧ (startServer opts st ["main.js", "other.js"] (some dir) child).pending
          = some { child := child, hasCb := true } := by
  have hjoin : joinSp ["main.js", "other.js"] = "main.js other.js" := rfl
  simp [startServer, resolveName, hname, optStrTruthy, bne_iff_ne, hdir,
    _startServer, showJs, hjoin, append_slash_ne_empty]

/-- C7 witness. -/
theorem missing_name_logs_and_spawns_witness :
    (startServer
      { autoRestart := true, args := [], cwd := none, env := none,
        keyboard := false, name := some "missing.js", nodeArgs := [],
        restartable := false, signal := SignalOpt.ofBool false }
      initialState ["main.js", "other.js"] (some "/dist")
      { pid := some 8, connected := true }).trace =
        [Effect.logError
            "Entry missing.js not found. Try one of: main.js other.js",
          Effect.forkProc ("/dist" ++ "/" ++ "missing.js") [] [] none none]
      ∧ (startServer
      { autoRestart := true, args := [], cwd := none, env := none,
        keyboard := false, name := some "missing.js", nodeArgs := [],
        restartable := false, signal := SignalOpt.ofBool false }
      initialState ["main.js", "other.js"] (some "/dist")
      { pid := some 8, connected := true }).thrown = none
      ∧ (startServer
      { autoRestart := true, args := [], cwd := none, env := none,
        keyboard := false, name := some "missing.js", nodeArgs := [],
        restartable := false, signal := SignalOpt.ofBool false }
      initialState ["main.js", "other.js"] (some "/dist")
      { pid := some 8, connected := true }).pending =
        some { child := { pid := some 8, connected := true }, hasCb := true } :=
  missing_name_logs_and_spawns _ initialState "/dist" _ rfl (by decide)

/-- C8: with the keyboard listener installed and an entrypoint resolved,
a stdin chunk trimming to `rs` triggers exactly one restart cycle —
restarting notice, then the pid-guarded kill, then one fork — while any
other chunk does nothing at all. -/
theorem keyboard_rs_restart (opts : Options) (st : PluginState)
    (child : Worker) (data : String) (e : String)
    (hinst : stdinHandlerInstalled opts = true)
    (he : st.entrypoint = some e) (he0 : e ≠ "") :
    (jsTrim data = "rs" →
        stdinDataEvent opts st child data =
          { st := st
            trace := Effect.logInfo "Restarting app..." ::
              (_stopServer opts st ++
                [Effect.forkProc e opts.args opts.nodeArgs opts.cwd opts.env])
            pending := some { child := child, hasCb := false }
            thrown := none })
  ∧ (jsTrim data ≠ "rs" →
      stdinDataEvent opts st child data =
        { st := st, trace := [], pending := none, thrown := none }) := by
  constructor <;> intro hd <;>
    simp [stdinDataEvent, hinst, onData, hd, _restartServer, _startServer,
      he, optStrTruthy, bne_iff_ne, he0, beq_iff_eq]

/-- C8 witness: `"  rs\n"` restarts once, `"hello"` does nothing. -/
theorem keyboard_rs_restart_witness :
    stdinDataEvent
      { autoRestart := true, args := [], cwd := none, env := none,
        keyboard := true, name := none, nodeArgs := [], restartable := true,
        signal := SignalOpt.ofBool false }
      { worker := none, entrypoint := some "/dist/main.js" }
      { pid := some 4, connected := true } "  rs\n" =
      { st := { worker := none, entrypoint := some "/dist/main.js" }
        trace := Effect.logInfo "Restarting app..." ::
          (_stopServer
            { autoRestart := true, args := [], cwd := none, env := none,
              keyboard := true, name := none, nodeArgs := [],
              restartable := true, signal := SignalOpt.ofBool false }
            { worker := none, entrypoint := some "/dist/main.js" } ++
            [Effect.forkProc "/dist/main.js" [] [] none none])
        pending := some { child := { pid := some 4, connected := true },
                          hasCb := false }
        thrown := none }
    ∧ stdinDataEvent
      { autoRestart := true, args := [], cwd := none, env := none,
        keyboard := true, name := none, nodeArgs := [], restartable := true,
        signal := SignalOpt.ofBool false }
      { worker := none, entrypoint := some "/dist/main.js" }
      { pid := some 4, connected := true } "hello" =
      { st := { worker := none, entrypoint := some "/dist/main.js" }
        trace := [], pending := none, thrown := none } :=
  ⟨(keyboard_rs_restart
      { autoRestart := true, args := [], cwd := none, env := none,
        keyboard := true, name := none, nodeArgs := [], restartable := true,
        signal := SignalOpt.ofBool false }
      { worker := none, entrypoint := some "/dist/main.js" }
      { pid := some 4, connected := true } "  rs\n" "/dist/main.js"
      rfl rfl (by decide)).1 (by decide),
   (keyboard_rs_restart
      { autoRestart := true, args := [], cwd := none, env := none,
        keyboard := true, name := none, nodeArgs := [], restartable := true,
        signal := SignalOpt.ofBool false }
      { worker := none, entrypoint := some "/dist/main.js" }
      { pid := some 4, connected := true } "hello" "/dist/main.js"
      rfl rfl (by decide)).2 (by decide)⟩

/-- C9: attempting the spawn procedure with no resolved entrypoint
throws `run-script-webpack-plugin requires an entrypoint.` — no fork, no
scheduled task, no silent return. -/
theorem spawn_without_entrypoint_throws (opts : Options) (st : PluginState)
    (child : Worker) (hasCb : Bool) (he : st.entrypoint = none) :
    _startServer opts st child hasCb =
      { st := st, trace := [], pending := none
        thrown := some "run-script-webpack-plugin requires an entrypoint." } := by
  simp [_startServer, he, optStrTruthy]

/-- C9 witness: a keyboard restart before any successful start. -/
theorem spawn_without_entrypoint_throws_witness :
    _startServer
      { autoRestart := true, args := [], cwd := none, env := none,
        keyboard := true, name := none, nodeArgs := [], restartable := true,
        signal := SignalOpt.ofBool false }
      initialState { pid := some 3, connected := true } false =
      { st := initialState, trace := [], pending := none
        thrown := some "run-script-webpack-plugin requires an entrypoint." } :=
  spawn_without_entrypoint_throws _ initialState _ false rfl

/-- C10: with no configured name and an empty artifact set (output
directory defined), `startServer` neither throws nor logs; the chosen
name is the undefined first element, the recorded entrypoint is
`` `${dir}/undefined` ``, and the fork is attempted with that path. -/
theorem empty_assets_undefined_entry (opts : Options) (st : PluginState)
    (dir : String) (child : Worker)
    (hname : opts.name = none) (hdir : dir ≠ "") :
    startServer opts st [] (some dir) child =
      { st := { worker := st.worker
                entrypoint := some (dir ++ "/" ++ "undefined") }
        trace := [Effect.forkProc (dir ++ "/" ++ "undefined") opts.args
          opts.nodeArgs opts.cwd opts.env]
        pending := some { child := child, hasCb := true }
        thrown := none } := by
  simp [startServer, resolveName, hname, optStrTruthy, bne_iff_ne, hdir,
    showJs, _startServer, append_slash_ne_empty]

/-- C10 witness. -/
theorem empty_assets_undefined_entry_witness :
    startServer
      { autoRestart := true, args := [], cwd := none, env := none,
        keyboard := false, name := none, nodeArgs := [], restartable := false,
        signal := SignalOpt.ofBool false }
      initialState [] (some "/dist") { pid := some 6, connected := true } =
      { st := { worker := none
                entrypoint := some ("/dist" ++ "/" ++ "undefined") }
        trace := [Effect.forkProc ("/dist" ++ "/" ++ "undefined") [] [] none
          none]
        pending := some { child := { pid := some 6, connected := true },
                          hasCb := true }
        thrown := none } :=
  empty_assets_undefined_entry _ initialState "/dist" _ rfl (by decide)

end RunScript
